import Mathlib

/-!
Verification of the dialer availability monitor.

Shallow embedding of the check scheduling and result pipeline:
`src/check.rs` (checker, recorder, identity materialization),
`src/db.rs` (identity store), and `src/web.rs` (rollup aggregation).
Machine integers (u64, i64) are modelled as Nat/Int; epochs are seconds,
latencies are milliseconds, durations are nanoseconds where noted.
-/

deriving instance DecidableEq for Except

namespace Dialer

/-- Check kind (src/check.rs `Kind`): http or ping. -/
inductive Kind where
  | http
  | ping
deriving DecidableEq

/-- `Kind::as_str` (src/check.rs 401-408). -/
def Kind.as_str : Kind → String
  | .http => "http"
  | .ping => "ping"

/-- An HTTP check (src/check.rs `Http`, 410-416); the url is kept as its string.
`code` is the optional expected status code copied from the config. -/
structure Http where
  id : Nat
  name : String
  url : String
  code : Option Nat
deriving DecidableEq

/-- A ping check (src/check.rs `Ping`, 454-459). -/
structure Ping where
  id : Nat
  name : String
  host : String
deriving DecidableEq

/-- Rust `format!` with the `:?` (Debug) specifier applied to a string value, as
used by `mark_err`: the string is wrapped in double quotes. Escaping of special
characters inside the string is not modelled (no input here contains any). -/
def rustDebugQuote (s : String) : String := "\x22" ++ s ++ "\x22"

/-- One row of the `results` table: `check_id`, `epoch`, `ms`, `err`.
The recorder inserts only `check_id` and one of `ms`/`err`; `epoch` is filled
by the column default of the schema (migrations are not under src; per the
spec it is the wall-clock epoch in seconds), so it is an explicit argument of
the row constructors here. -/
structure ResultRow where
  check_id : Nat
  epoch : Nat
  ms : Option Nat
  err : Option String
deriving DecidableEq

/-- `Checker::mark_ok` (src/check.rs 313-324):
`insert into results (check_id, ms) values (?1,?2)` — `err` is left null. -/
def mark_ok (id : Nat) (epoch : Nat) (ms : Nat) : ResultRow :=
  { check_id := id, epoch := epoch, ms := some ms, err := none }

/-- `Checker::mark_err` (src/check.rs 300-311):
`insert into results (check_id, err) values (?1,?2)` with the message
Debug-formatted — `ms` is left null. -/
def mark_err (id : Nat) (epoch : Nat) (err : String) : ResultRow :=
  { check_id := id, epoch := epoch, ms := none, err := some (rustDebugQuote err) }

/-- Result of awaiting `tokio::time::timeout(timeout, probe)` inside
`check_http` (src/check.rs 230-245): `Err(Elapsed)` is `timeout`,
`Ok(Err(e))` is `failure`, and `Ok(Ok((resp, latency)))` is `response`,
carrying the response status and the measured latency. The timeout branch
abandons the probe, so it carries no information about the response the
probe would eventually have produced. -/
inductive HttpProbeResult where
  | timeout
  | failure (err : String)
  | response (status : Nat) (latencyMs : Nat)
deriving DecidableEq

/-- Result of awaiting the ping future in `check_ping` (src/check.rs 264-283). -/
inductive PingProbeResult where
  | timeout
  | failure (err : String)
  | pong (latencyMs : Nat)
deriving DecidableEq

/-- The match in `Checker::check_http` (src/check.rs 246-258), reduced to the
recorded row. The `Ok(Ok((_, latency)))` arm binds the response as `_`: the
status code is discarded and `http.code` is never read anywhere. -/
def check_http (http : Http) (epoch : Nat) (res : HttpProbeResult) : ResultRow :=
  match res with
  | .response _ ms => mark_ok http.id epoch ms
  | .failure e => mark_err http.id epoch e
  | .timeout => mark_err http.id epoch ("timeout")

/-- The match in `Checker::check_ping` (src/check.rs 284-296). -/
def check_ping (ping : Ping) (epoch : Nat) (res : PingProbeResult) : ResultRow :=
  match res with
  | .pong ms => mark_ok ping.id epoch ms
  | .failure e => mark_err ping.id epoch e
  | .timeout => mark_err ping.id epoch ("timeout")

/-- One spawned check task's result as seen by `JoinSet::join_next` in
`check_all` (src/check.rs 207-216): either the task panicked (`Err(join_err)`)
or it completed with the check's `anyhow::Result<()>`. -/
inductive TaskJoin where
  | panicked (msg : String)
  | completed (res : Except String Unit)

/-- Whether a task result hits the silent `Ok(Ok(()))` arm of the match in
`check_all` (src/check.rs 209); the other two arms log. -/
def TaskJoin.isOk : TaskJoin → Bool
  | .completed (.ok _) => true
  | _ => false

/-- The await-all loop of `Checker::check_all` (src/check.rs 200-219): every
task result is matched; a failed or panicked task only produces a log line;
the function returns `Ok(())` unconditionally. Returns `(log lines, result)`. -/
def check_all_join : List TaskJoin → List String × Except String Unit
  | [] => ([], .ok ())
  | t :: ts =>
    let rest := check_all_join ts
    match t with
    | .completed (.ok _) => rest
    | .completed (.error e) => (("task failed: " ++ e) :: rest.1, rest.2)
    | .panicked m => (("check task panicked: " ++ m) :: rest.1, rest.2)

/-- `Duration::saturating_sub` on durations modelled as Nat (nanoseconds):
Lean's Nat subtraction is exactly the saturating one. -/
def duration_saturating_sub (a b : Nat) : Nat := a - b

/-- One iteration of `Checker::check_loop` (src/check.rs 190-197): run
`check_all` (whose errors would short-circuit through `?`), then compute the
sleep `self.config.interval.saturating_sub(now.elapsed())`. Returns the sleep
duration to perform before the next tick. -/
def check_loop_tick (interval elapsed : Nat) (joins : List TaskJoin) :
    Except String Nat :=
  match (check_all_join joins).2 with
  | .error e => .error e
  | .ok _ => .ok (duration_saturating_sub interval elapsed)

/-- A row of the `checks` table: `id`, `name`, `kind`. -/
structure CheckRow where
  id : Nat
  name : String
  kind : String
deriving DecidableEq

/-- The `checks` table together with sqlite's rowid counter (ids start at 1,
as the `materialize` test in src/db.rs asserts). -/
structure ChecksTable where
  rows : List CheckRow
  nextId : Nat
deriving DecidableEq

/-- An empty `checks` table. -/
def ChecksTable.empty : ChecksTable := { rows := [], nextId := 1 }

/-- Storage-level failure of a statement. -/
inductive DbError where
  | uniqueViolation
deriving DecidableEq

/-- `select id from checks where name=?1 and kind=?2` (src/check.rs 331-339). -/
def select_check (t : ChecksTable) (name kind : String) : Option Nat :=
  (t.rows.find? (fun c => c.name == name && c.kind == kind)).map (fun c => c.id)

/-- `insert into checks (name, kind) values (?1, ?2) returning id`
(src/check.rs 342-349). Modelled from the spec: the migrations (not under
src) give `checks` a unique constraint per `(name, kind)` key ("insert-if-absent
must be atomic per key, e.g. unique constraint"), so inserting a duplicate key
fails with a constraint violation instead of creating a second row. -/
def insert_check (t : ChecksTable) (name kind : String) :
    Except DbError (Nat × ChecksTable) :=
  if t.rows.any (fun c => c.name == name && c.kind == kind) then
    .error .uniqueViolation
  else
    .ok (t.nextId, { rows := t.rows ++ [⟨t.nextId, name, kind⟩], nextId := t.nextId + 1 })

/-- The second half of `materialize`, resumed against table `t` after its
initial select returned `found`: return the found id, else insert. An insert
failure is propagated as-is — there is no re-read on conflict. -/
def materialize_resume (t : ChecksTable) (name kind : String) (found : Option Nat) :
    Except DbError (Nat × ChecksTable) :=
  match found with
  | some id => .ok (id, t)
  | none => insert_check t name kind

/-- `Checker::materialize` (src/check.rs 326-354) = `Db::materialize`
(src/db.rs 169-200): select by `(name, kind)`, insert if absent. The two SQL
statements run in autocommit mode (no enclosing transaction). -/
def materialize (t : ChecksTable) (name kind : String) :
    Except DbError (Nat × ChecksTable) :=
  materialize_resume t name kind (select_check t name kind)

/-- Two concurrent `materialize` calls for the same `(name, kind)` under the
statement interleaving select-A, select-B, insert-A, insert-B (each statement
is its own autocommit transaction, so statements of the two calls may
interleave). Returns (result of A, result of B, final table). -/
def materialize_race (t : ChecksTable) (name kind : String) :
    Except DbError Nat × Except DbError Nat × ChecksTable :=
  let foundA := select_check t name kind
  let foundB := select_check t name kind
  match materialize_resume t name kind foundA with
  | .ok (idA, t1) =>
    match materialize_resume t1 name kind foundB with
    | .ok (idB, t2) => (.ok idA, .ok idB, t2)
    | .error e => (.ok idA, .error e, t1)
  | .error e =>
    match materialize_resume t name kind foundB with
    | .ok (idB, t2) => (.error e, .ok idB, t2)
    | .error e2 => (.error e, .error e2, t)

/-- The WHERE clause of the rollup query (src/web.rs 198-199):
`r.epoch >= :start_time AND r.epoch <= :end_time` — both bounds inclusive. -/
def in_window (startT endT : Nat) (r : ResultRow) : Bool :=
  decide (startT ≤ r.epoch) && decide (r.epoch ≤ endT)

/-- `r.epoch / :rollup * :rollup AS bucket` (src/web.rs 189), sqlite integer
division. -/
def bucket_of (res epoch : Nat) : Nat := epoch / res * res

/-- The GROUP BY key of the rollup query (src/web.rs 200):
`r.check_id, c.name, c.kind, bucket`. -/
structure GroupKey where
  check_id : Nat
  name : String
  kind : String
  bucket : Nat
deriving DecidableEq

/-- `FROM results r JOIN checks c ON r.check_id = c.id` restricted by the
WHERE clause (src/web.rs 196-199): each surviving result row paired with its
matching check rows. -/
def joined_rows (checks : List CheckRow) (recs : List ResultRow) (startT endT : Nat) :
    List (ResultRow × CheckRow) :=
  (recs.filter (in_window startT endT)).flatMap
    (fun r => (checks.filter (fun c => c.id == r.check_id)).map (fun c => (r, c)))

/-- The group key of one joined row at bucket width `res`. -/
def key_of (res : Nat) (rc : ResultRow × CheckRow) : GroupKey :=
  { check_id := rc.1.check_id, name := rc.2.name, kind := rc.2.kind,
    bucket := bucket_of res rc.1.epoch }

/-- The joined rows belonging to the group with key `k`. -/
def group_of (checks : List CheckRow) (recs : List ResultRow) (startT endT res : Nat)
    (k : GroupKey) : List (ResultRow × CheckRow) :=
  (joined_rows checks recs startT endT).filter (fun rc => key_of res rc == k)

/-- SQL `MIN` over the non-NULL values of a column: NULL (`none`) on no rows. -/
def list_min : List Nat → Option Nat
  | [] => none
  | x :: xs =>
    match list_min xs with
    | none => some x
    | some y => some (Nat.min x y)

/-- SQL `MAX` over the non-NULL values of a column: NULL (`none`) on no rows. -/
def list_max : List Nat → Option Nat
  | [] => none
  | x :: xs =>
    match list_max xs with
    | none => some x
    | some y => some (Nat.max x y)

/-- `CAST(AVG(col) AS INTEGER)`: SQL AVG skips NULLs and is NULL on no rows;
the cast truncates the (non-negative) real average, modelled as Nat floor
division of the sum by the count. -/
def list_avg (l : List Nat) : Option Nat :=
  if l.length = 0 then none else some (l.sum / l.length)

/-- One output row of the rollup query (the `Rollup` struct, src/web.rs
211-222): min/avg/max are nullable, count and errs are not. -/
structure Rollup where
  id : Nat
  name : String
  kind : String
  bucket : Nat
  min : Option Nat
  avg : Option Nat
  max : Option Nat
  count : Nat
  errs : Nat
deriving DecidableEq

/-- The aggregates of one group (src/web.rs 191-195): `MIN`/`AVG`/`MAX` over
`r.ms` skip NULLs, `COUNT(*)` counts every row of the group, and
`COUNT(r.err)` counts the rows whose `err` is non-NULL. -/
def agg_of (k : GroupKey) (g : List (ResultRow × CheckRow)) : Rollup :=
  let ms := g.filterMap (fun rc => rc.1.ms)
  { id := k.check_id, name := k.name, kind := k.kind, bucket := k.bucket,
    min := list_min ms, avg := list_avg ms, max := list_max ms,
    count := g.length,
    errs := (g.filter (fun rc => rc.1.err.isSome)).length }

/-- The distinct group keys present among the joined rows. -/
def keys_of (checks : List CheckRow) (recs : List ResultRow) (startT endT res : Nat) :
    List GroupKey :=
  ((joined_rows checks recs startT endT).map (key_of res)).dedup

/-- `ORDER BY bucket, name, kind` (src/web.rs 201) as a Bool comparison. -/
def rollup_le (a b : Rollup) : Bool :=
  decide (a.bucket < b.bucket) ||
    (a.bucket == b.bucket &&
      (decide (a.name < b.name) ||
        (a.name == b.name && !decide (b.kind < a.kind))))

/-- Insertion into a list sorted by `rollup_le`. -/
def insert_sorted (x : Rollup) : List Rollup → List Rollup
  | [] => [x]
  | y :: ys => if rollup_le x y then x :: y :: ys else y :: insert_sorted x ys

/-- Insertion sort by `ORDER BY bucket, name, kind`. -/
def sort_rollups (l : List Rollup) : List Rollup := l.foldr insert_sorted []

/-- `DurationExt::resolution` (src/web.rs 105-114), in seconds: windows of at
most 600 seconds use 1-second buckets, larger ones 5-second buckets. -/
def resolution (windowSecs : Nat) : Nat := if windowSecs ≤ 600 then 1 else 5

/-- Request-level failures of `handle_metrics` (src/web.rs `ServerError`);
only the invalid-range condition matters here. -/
inductive ServerError where
  | invalidEndDate
deriving DecidableEq

/-- The rollup query of `handle_metrics` over epoch bounds: group the joined
rows by `(check_id, name, kind, bucket)`, aggregate each group, and sort by
`(bucket, name, kind)`. -/
def rollup_rows (checks : List CheckRow) (recs : List ResultRow) (startT endT res : Nat) :
    List Rollup :=
  sort_rollups ((keys_of checks recs startT endT res).map
    (fun k => agg_of k (group_of checks recs startT endT res k)))

/-- `handle_metrics` (src/web.rs 156-261) with the window already resolved to
epoch seconds: reject `end <= start` with the invalid-range error, pick the
bucket width from the window size, and run the rollup query. -/
def handle_metrics_rows (checks : List CheckRow) (recs : List ResultRow)
    (startT endT : Nat) : Except ServerError (List Rollup) :=
  if endT ≤ startT then .error .invalidEndDate
  else .ok (rollup_rows checks recs startT endT (resolution (endT - startT)))

/-- The query parameters of `handle_metrics` (src/web.rs `MetricsQuery`):
timestamps as signed epoch seconds, `last` as a duration in seconds. -/
structure MetricsQuery where
  start : Option Int
  end_ : Option Int
  last : Option Nat
deriving DecidableEq

/-- Window resolution of `handle_metrics` (src/web.rs 161-167): `last`
overrides both bounds with `[now - last, now]`; otherwise `start` defaults to
`now - 3600` seconds and `end` to `now`. -/
def resolve_window (q : MetricsQuery) (now : Int) : Int × Int :=
  let q :=
    match q.last with
    | some l => { q with start := some (now - (l : Int)), end_ := some now }
    | none => q
  (q.start.getD (now - 3600), q.end_.getD now)

/-- The range validation of `handle_metrics` (src/web.rs 168-170): a resolved
window with `end <= start` fails with `ServerError::InvalidEndDate`; otherwise
the bounds pass through unchanged. -/
def metrics_window (q : MetricsQuery) (now : Int) : Except ServerError (Int × Int) :=
  if (resolve_window q now).2 ≤ (resolve_window q now).1 then .error .invalidEndDate
  else .ok (resolve_window q now)

/-- One serialized point (src/web.rs `TimeValue`, 342-350): `ts` kept as the
bucket epoch. -/
structure TimeValue where
  ts : Nat
  count : Nat
  errs : Nat
  avg : Nat
  min : Nat
  max : Nat
deriving DecidableEq

/-- src/web.rs 248-255: a rollup row is serialized with
`row.avg.unwrap_or_default()` etc., so NULL aggregates are emitted as 0. -/
def to_time_value (r : Rollup) : TimeValue :=
  { ts := r.bucket, count := r.count, errs := r.errs,
    avg := r.avg.getD 0, min := r.min.getD 0, max := r.max.getD 0 }

/-- An HTTP check with a configured expected status code, for concrete cases. -/
def exHttp : Http := { id := 1, name := "site", url := "http://site", code := some 200 }

/-- A one-check `checks` table for the rollup example. -/
def exChecks : List CheckRow := [{ id := 1, name := "a", kind := "http" }]

/-- The records of the spec's rollup example: two successes at epoch 100
(10ms and 30ms) and one error at epoch 101. -/
def exRecs : List ResultRow :=
  [{ check_id := 1, epoch := 100, ms := some 10, err := none },
   { check_id := 1, epoch := 100, ms := some 30, err := none },
   { check_id := 1, epoch := 101, ms := none, err := some "boom" }]

/-- Expected bucket 100 of the rollup example. -/
def exRow100 : Rollup :=
  { id := 1, name := "a", kind := "http", bucket := 100,
    min := some 10, avg := some 20, max := some 30, count := 2, errs := 0 }

/-- Expected bucket 101 of the rollup example. -/
def exRow101 : Rollup :=
  { id := 1, name := "a", kind := "http", bucket := 101,
    min := none, avg := none, max := none, count := 1, errs := 1 }

/-- The group key of bucket 100 in the rollup example. -/
def exKey100 : GroupKey := { check_id := 1, name := "a", kind := "http", bucket := 100 }

/-- The group key of bucket 101 in the rollup example. -/
def exKey101 : GroupKey := { check_id := 1, name := "a", kind := "http", bucket := 101 }

/-- A one-row group holding a genuine zero-millisecond success. -/
def exZeroGroup : List (ResultRow × CheckRow) :=
  [({ check_id := 1, epoch := 100, ms := some 0, err := none }, ⟨1, "a", "http"⟩)]

/-- A one-row group holding a single error record, as `mark_err` writes it. -/
def exErrGroup : List (ResultRow × CheckRow) :=
  [({ check_id := 1, epoch := 101, ms := none, err := some "boom" }, ⟨1, "a", "http"⟩)]

/-- Helper: under the recorder invariant (rows with a non-null error carry a
null `ms`), the non-NULL `ms` values of a group are exactly the `ms` values
of its non-error rows. -/
theorem filterMap_ms_of_err_none (g : List (ResultRow × CheckRow))
    (h : ∀ rc ∈ g, rc.1.err.isSome = true → rc.1.ms = Option.none) :
    g.filterMap (fun rc => rc.1.ms) =
      (g.filter (fun rc => rc.1.err.isNone)).filterMap (fun rc => rc.1.ms) := by
  induction g with
  | nil => rfl
  | cons rc g ih =>
    have hg : ∀ x ∈ g, x.1.err.isSome = true → x.1.ms = Option.none :=
      fun x hx => h x (List.mem_cons_of_mem rc hx)
    cases herr : rc.1.err with
    | none =>
      simp [List.filterMap_cons, List.filter_cons, herr, ih hg]
    | some e =>
      have hms := h rc (List.mem_cons_self rc g) (by simp [herr])
      simp [List.filterMap_cons, List.filter_cons, herr, hms, ih hg]

/-- Helper: a group all of whose rows carry a null `ms` contributes no
latency samples. -/
theorem filterMap_ms_nil (g : List (ResultRow × CheckRow))
    (h : ∀ rc ∈ g, rc.1.ms = Option.none) :
    g.filterMap (fun rc => rc.1.ms) = [] := by
  induction g with
  | nil => rfl
  | cons rc g ih =>
    simp [List.filterMap_cons, h rc (List.mem_cons_self rc g),
      ih (fun x hx => h x (List.mem_cons_of_mem rc hx))]

/-- Helper: Nat truncated subtraction, cast to Int, is the clamped difference. -/
theorem natSub_cast_eq_max (a b : Nat) :
    ((a - b : Nat) : Int) = max 0 ((a : Int) - (b : Int)) := by
  rcases Nat.le_total a b with h | h
  · rw [Nat.sub_eq_zero_of_le h,
      max_eq_left (by omega : (a : Int) - (b : Int) ≤ 0)]
    simp
  · rw [Nat.cast_sub h,
      max_eq_right (by omega : (0 : Int) ≤ (a : Int) - (b : Int))]

/-- Claim C1, counterexample: an HTTP check configured with expected code 200
that receives a 500 response is recorded by `check_http` as a success row
(`ms` set, `err` null) — not as an error of kind status. -/
theorem c1_counterexample :
    exHttp.code = some 200 ∧
      check_http exHttp 7 (HttpProbeResult.response 500 5) = mark_ok 1 7 5 ∧
      (mark_ok 1 7 5).err = Option.none ∧ (mark_ok 1 7 5).ms = some 5 := by
  exact ⟨rfl, rfl, rfl, rfl⟩

/-- Claim C1, amended: `check_http` ignores `expected_code` entirely — every
probe attempt that receives a response is recorded as a success with the
measured latency, whatever the status code; the configured code is never
consulted. -/
theorem c1_response_always_recorded_ok (http : Http) (epoch status ms : Nat) :
    check_http http epoch (HttpProbeResult.response status ms) =
      mark_ok http.id epoch ms := rfl

/-- Claim C2: sequentially, `materialize` is idempotent — the first call on an
empty store creates row 1 and a repeated call returns the same id with the
store unchanged — but under the concurrent statement interleaving select-A,
select-B, insert-A, insert-B, caller B's insert hits the unique constraint
and `materialize` propagates the storage error instead of re-reading and
returning the existing id. -/
theorem c2_materialize_race :
    materialize ChecksTable.empty ("foo") ("ping") =
        .ok (1, { rows := [⟨1, "foo", "ping"⟩], nextId := 2 }) ∧
      materialize { rows := [⟨1, "foo", "ping"⟩], nextId := 2 } ("foo") ("ping") =
        .ok (1, { rows := [⟨1, "foo", "ping"⟩], nextId := 2 }) ∧
      materialize_race ChecksTable.empty ("foo") ("ping") =
        (.ok 1, .error .uniqueViolation,
          { rows := [⟨1, "foo", "ping"⟩], nextId := 2 }) := by
  exact ⟨by decide, by decide, by decide⟩

/-- Claim C3: when the per-check timeout (the configured interval) elapses
first, `check_http` and `check_ping` record an error row whose message is the
timeout marker and whose `ms` is null — never a success row; the timeout
branch of the match carries no response, so an eventual success of the
abandoned probe cannot be recorded. -/
theorem c3_timeout_recorded_as_error (http : Http) (ping : Ping) (epoch : Nat) :
    check_http http epoch HttpProbeResult.timeout = mark_err http.id epoch ("timeout") ∧
      check_ping ping epoch PingProbeResult.timeout = mark_err ping.id epoch ("timeout") ∧
      (check_http http epoch HttpProbeResult.timeout).ms = Option.none ∧
      (check_http http epoch HttpProbeResult.timeout).err =
        some (rustDebugQuote ("timeout")) ∧
      (check_ping ping epoch PingProbeResult.timeout).ms = Option.none ∧
      (check_ping ping epoch PingProbeResult.timeout).err =
        some (rustDebugQuote ("timeout")) := by
  exact ⟨rfl, rfl, rfl, rfl, rfl, rfl⟩

/-- Claim C8: every row written by the recorder has exactly one of `ms` and
`err` present — `mark_ok` sets `ms` and leaves `err` null, `mark_err` the
reverse — and `check_http`/`check_ping` write only through those two. -/
theorem c8_exactly_one_of_ms_err (http : Http) (ping : Ping) (epoch : Nat)
    (hr : HttpProbeResult) (pr : PingProbeResult) :
    ((check_http http epoch hr).ms.isSome = true ∧
        (check_http http epoch hr).err = Option.none ∨
      (check_http http epoch hr).ms = Option.none ∧
        (check_http http epoch hr).err.isSome = true) ∧
      ((check_ping ping epoch pr).ms.isSome = true ∧
          (check_ping ping epoch pr).err = Option.none ∨
        (check_ping ping epoch pr).ms = Option.none ∧
          (check_ping ping epoch pr).err.isSome = true) := by
  constructor
  · cases hr <;> simp [check_http, mark_ok, mark_err]
  · cases pr <;> simp [check_ping, mark_ok, mark_err]

/-- Claim C9: the post-tick sleep `interval.saturating_sub(elapsed)` equals
max(0, interval − elapsed) over the integers, and is zero (never negative)
whenever the tick took at least the configured interval. -/
theorem c9_sleep_saturating :
    (∀ interval elapsed : Nat,
        ((duration_saturating_sub interval elapsed : Nat) : Int) =
          max 0 ((interval : Int) - (elapsed : Int))) ∧
      ∀ interval elapsed : Nat, interval ≤ elapsed →
        duration_saturating_sub interval elapsed = 0 := by
  constructor
  · intro i e
    exact natSub_cast_eq_max i e
  · intro i e h
    exact Nat.sub_eq_zero_of_le h

/-- Witness for C9: with interval 3 and elapsed 5 the sleep is zero; with
interval 10 and elapsed 3 the clamped identity evaluates to 7. -/
theorem c9_sleep_saturating_witness :
    duration_saturating_sub 3 5 = 0 ∧
      ((duration_saturating_sub 10 3 : Nat) : Int) =
        max 0 ((10 : Int) - (3 : Int)) := by
  exact ⟨c9_sleep_saturating.2 3 5 (by decide), c9_sleep_saturating.1 10 3⟩

/-- Claim C4, counterexample: with window start 100 and end 102, the record at
epoch 102 (equal to end) is included by the query's WHERE clause, refuting the
claimed `start ≤ epoch < end` inclusion at this input. -/
theorem c4_counterexample :
    ¬ (in_window 100 102 { check_id := 1, epoch := 102, ms := some 5, err := none } = true ↔
        100 ≤ (102 : Nat) ∧ (102 : Nat) < 102) := by decide

/-- Claim C4, amended: a record is included in the rollup iff
`start ≤ epoch ≤ end` (the end bound is inclusive); every record is assigned
the bucket `epoch − (epoch mod bucket_width)`; and a joined row belongs to
group `k` exactly when its key — check_id together with name, kind and
bucket — equals `k`. -/
theorem c4_window_bucket_grouping (startT endT res : Nat) (r : ResultRow)
    (checks : List CheckRow) (recs : List ResultRow) (k : GroupKey)
    (rc : ResultRow × CheckRow) :
    (in_window startT endT r = true ↔ startT ≤ r.epoch ∧ r.epoch ≤ endT) ∧
      bucket_of res r.epoch = r.epoch - r.epoch % res ∧
      (rc ∈ group_of checks recs startT endT res k ↔
        rc ∈ joined_rows checks recs startT endT ∧ key_of res rc = k) := by
  refine ⟨?_, ?_, ?_⟩
  · simp [in_window]
  · have h := Nat.div_add_mod r.epoch res
    have h2 : r.epoch / res * res + r.epoch % res = r.epoch := by
      rw [Nat.mul_comm] at h
      exact h
    exact Nat.eq_sub_of_add_eq h2
  · simp [group_of, List.mem_filter, beq_iff_eq]

/-- Claim C5: per bucket group, `count` counts every record of the group,
`errs` counts the records with a non-null error, and min/avg/max are computed
over the `ms` of exactly the non-error records (given the recorder invariant
that error rows carry a null `ms`); and on the spec's example — successes of
10ms and 30ms at epoch 100 and an error at epoch 101, window 100..102 with
1-second buckets — the query returns bucket 100 with min 10, avg 20, max 30,
count 2, errs 0 and bucket 101 with count 1, errs 1. -/
theorem c5_rollup_stats :
    (∀ (checks : List CheckRow) (recs : List ResultRow) (startT endT res : Nat)
        (k : GroupKey),
      (∀ rc ∈ group_of checks recs startT endT res k,
          rc.1.err.isSome = true → rc.1.ms = Option.none) →
        (agg_of k (group_of checks recs startT endT res k)).count =
            (group_of checks recs startT endT res k).length ∧
          (agg_of k (group_of checks recs startT endT res k)).errs =
            ((group_of checks recs startT endT res k).filter
              (fun rc => rc.1.err.isSome)).length ∧
          (agg_of k (group_of checks recs startT endT res k)).min =
            list_min (((group_of checks recs startT endT res k).filter
              (fun rc => rc.1.err.isNone)).filterMap (fun rc => rc.1.ms)) ∧
          (agg_of k (group_of checks recs startT endT res k)).avg =
            list_avg (((group_of checks recs startT endT res k).filter
              (fun rc => rc.1.err.isNone)).filterMap (fun rc => rc.1.ms)) ∧
          (agg_of k (group_of checks recs startT endT res k)).max =
            list_max (((group_of checks recs startT endT res k).filter
              (fun rc => rc.1.err.isNone)).filterMap (fun rc => rc.1.ms))) ∧
      handle_metrics_rows exChecks exRecs 100 102 = Except.ok [exRow100, exRow101] := by
  constructor
  · intro checks recs startT endT res k h
    have he := filterMap_ms_of_err_none _ h
    exact ⟨rfl, rfl, by simp [agg_of, he], by simp [agg_of, he], by simp [agg_of, he]⟩
  · decide

/-- Witness for C5 at the example's bucket-100 group. -/
theorem c5_rollup_stats_witness :
    (agg_of exKey100 (group_of exChecks exRecs 100 102 1 exKey100)).count =
        (group_of exChecks exRecs 100 102 1 exKey100).length ∧
      (agg_of exKey100 (group_of exChecks exRecs 100 102 1 exKey100)).min =
        list_min (((group_of exChecks exRecs 100 102 1 exKey100).filter
          (fun rc => rc.1.err.isNone)).filterMap (fun rc => rc.1.ms)) := by
  have h := c5_rollup_stats.1 exChecks exRecs 100 102 1 exKey100 (by decide)
  exact ⟨h.1, h.2.2.1⟩

/-- Claim C6: a metrics query whose resolved window has `end <= start` fails
with the invalid-range error, and a valid window passes through with its
bounds unchanged — never swapped, clamped, or turned into an empty success. -/
theorem c6_invalid_range (q : MetricsQuery) (now : Int) :
    ((resolve_window q now).2 ≤ (resolve_window q now).1 →
        metrics_window q now = Except.error ServerError.invalidEndDate) ∧
      ((resolve_window q now).1 < (resolve_window q now).2 →
        metrics_window q now = Except.ok (resolve_window q now)) := by
  constructor
  · intro h
    simp [metrics_window, h]
  · intro h
    simp [metrics_window, not_le.mpr h]

/-- Witness for C6: start 10 / end 5 is rejected as an invalid range, while
start 0 / end 5 resolves to the unchanged window. -/
theorem c6_invalid_range_witness :
    metrics_window { start := some 10, end_ := some 5, last := none } 0 =
        Except.error ServerError.invalidEndDate ∧
      metrics_window { start := some 0, end_ := some 5, last := none } 0 =
        Except.ok (0, 5) := by
  constructor
  · exact (c6_invalid_range { start := some 10, end_ := some 5, last := none } 0).1
      (by decide)
  · exact (c6_invalid_range { start := some 0, end_ := some 5, last := none } 0).2
      (by decide)

/-- Claim C7: the await-all boundary of `check_all` turns every failed or
panicked task into exactly one log line, returns `Ok(())` no matter how many
tasks failed, and therefore the tick always proceeds to its sleep — the `?`
in `check_loop` never short-circuits on task failures. -/
theorem c7_check_all_isolation (ts : List TaskJoin) (interval elapsed : Nat) :
    (check_all_join ts).2 = Except.ok () ∧
      (check_all_join ts).1.length = ts.countP (fun t => !t.isOk) ∧
      check_loop_tick interval elapsed ts =
        Except.ok (duration_saturating_sub interval elapsed) := by
  have h : (check_all_join ts).2 = Except.ok () ∧
      (check_all_join ts).1.length = ts.countP (fun t => !t.isOk) := by
    induction ts with
    | nil => exact ⟨rfl, rfl⟩
    | cons t ts ih =>
      cases t with
      | panicked m =>
        simp [check_all_join, List.countP_cons, TaskJoin.isOk, ih.1, ih.2]
      | completed r =>
        cases r with
        | ok u =>
          simp [check_all_join, List.countP_cons, TaskJoin.isOk, ih.1, ih.2]
        | error e =>
          simp [check_all_join, List.countP_cons, TaskJoin.isOk, ih.1, ih.2]
  refine ⟨h.1, h.2, ?_⟩
  simp [check_loop_tick, h.1]

/-- Claim C10: a bucket group all of whose records are errors (null `ms`, as
the recorder writes them) yields NULL min/avg/max in the rollup row, and
serialization emits these as 0 — the same min/avg/max a bucket holding one
genuine zero-millisecond success produces, so the two cannot be told apart by
those fields. -/
theorem c10_all_error_bucket_zero (k : GroupKey) (g : List (ResultRow × CheckRow))
    (h : ∀ rc ∈ g, rc.1.err.isSome = true ∧ rc.1.ms = Option.none) :
    (to_time_value (agg_of k g)).min = 0 ∧
      (to_time_value (agg_of k g)).avg = 0 ∧
      (to_time_value (agg_of k g)).max = 0 ∧
      (to_time_value (agg_of exKey100 exZeroGroup)).min = 0 ∧
      (to_time_value (agg_of exKey100 exZeroGroup)).avg = 0 ∧
      (to_time_value (agg_of exKey100 exZeroGroup)).max = 0 := by
  have hnil := filterMap_ms_nil g (fun rc hrc => (h rc hrc).2)
  refine ⟨?_, ?_, ?_, by decide, by decide, by decide⟩ <;>
    simp [to_time_value, agg_of, hnil, list_min, list_max, list_avg]

/-- Witness for C10 at the one-error group of the rollup example. -/
theorem c10_all_error_bucket_zero_witness :
    (to_time_value (agg_of exKey101 exErrGroup)).min = 0 ∧
      (to_time_value (agg_of exKey101 exErrGroup)).avg = 0 ∧
      (to_time_value (agg_of exKey101 exErrGroup)).max = 0 := by
  have h := c10_all_error_bucket_zero exKey101 exErrGroup (by decide)
  exact ⟨h.1, h.2.1, h.2.2.1⟩

end Dialer
